import Mathlib

/-!
Verification of the hybrid clause-assessment engine of `agent/rule_engine.py`
(DocsUProof repository).

The Python module is shallowly embedded below:
* dictionaries with optional keys become structures with `Option` fields
  (a `weekly_rent` key may be absent — outer `none` — or present with the
  Python value `None` — `some none`);
* Python floats become `ℚ` (all constants appearing in the engine are exact);
* code that can raise (`float('')` in the numeric extractor, `None * int` in
  the break-lease branch) returns `Except PyError _`;
* `llm_adapters.llm_query` (network) and `json.loads` (stdlib) are external
  collaborators: the query's behaviour is an explicit argument (`QueryOutcome`:
  the returned string, or the message of the exception it raised), and JSON
  parsing of the adapter's text is an explicit `parse` argument returning the
  dict read through `get(key, "")`, or the decode-error message.
-/

namespace RuleEngine

/-! ### Character/string helpers: the regex fragments used by the engine -/

/-- `pat` occurs as a contiguous substring of `hay` (models `re` literal search
and Python's `in` on strings). -/
def containsL (pat : List Char) : List Char → Bool
  | [] => List.isPrefixOf pat []
  | c :: t => List.isPrefixOf pat (c :: t) || containsL pat t

/-- `pat` occurs in `hay` after zero or more non-newline characters (the tail
of a `a.*b` match without `re.S`). -/
def afterNoNewline (pat : List Char) : List Char → Bool
  | [] => List.isPrefixOf pat []
  | c :: t => List.isPrefixOf pat (c :: t) || ((c != '\n') && afterNoNewline pat t)

/-- Search for `a.*b` (no `re.S`: the gap may not span a newline). -/
def seqL (a b : List Char) : List Char → Bool
  | [] => List.isPrefixOf a [] && afterNoNewline b []
  | c :: t =>
    (List.isPrefixOf a (c :: t) && afterNoNewline b ((c :: t).drop a.length)) || seqL a b t

/-- Python's `str.lower` on the character list (ASCII-faithful for the
engine's patterns). -/
def lowerL (l : List Char) : List Char := l.map Char.toLower

/-- Case-insensitive substring search on strings (`re.I` literal pattern);
`pat` is supplied already lowercased. -/
def ciContains (s : String) (pat : String) : Bool :=
  containsL pat.data (lowerL s.data)

/-- Case-insensitive `a.*b` search (`re.I`, no `re.S`). -/
def ciSeq (s : String) (a b : String) : Bool :=
  seqL a.data b.data (lowerL s.data)

/-- Python's `\w` for the inputs at hand. -/
def isWordChar (c : Char) : Bool := c.isAlphanum || c == '_'

def headIsWordChar : List Char → Bool
  | [] => false
  | c :: _ => isWordChar c

/-- One position of a `\b(p₁|…|pₙ)\b` search: some phrase matches here with a
word boundary on both sides. -/
def wbHere (phrases : List (List Char)) (prev : Bool) (hay : List Char) : Bool :=
  !prev && phrases.any fun p =>
    List.isPrefixOf p hay && !headIsWordChar (hay.drop p.length)

/-- Scan for `\b(p₁|…|pₙ)\b`; `prev` records whether the previous character is
a word character. -/
def wbScan (phrases : List (List Char)) : Bool → List Char → Bool
  | prev, [] => wbHere phrases prev []
  | prev, c :: t => wbHere phrases prev (c :: t) || wbScan phrases (isWordChar c) t

/-- Case-insensitive word-bounded alternation search (the absolute-language
regex); phrases supplied lowercased. -/
def ciWordBounded (s : String) (phrases : List String) : Bool :=
  wbScan (phrases.map String.data) false (lowerL s.data)

/-! ### Numeric extraction (`extract_numbers_from_text`) -/

/-- Errors the Python code can raise. -/
inductive PyError where
  | valueError (msg : String)
  | typeError (msg : String)
  deriving DecidableEq, Repr

deriving instance DecidableEq for Except

def digitsVal (ds : List Char) : ℕ :=
  ds.foldl (fun n c => 10 * n + (c.toNat - 48)) 0

/-- Match `([0-9]+(?:\.[0-9]+)?)\s*<unit>` anchored at the current position,
returning the numeric value (`allowFrac` is false for the integer-valued
day/month patterns). -/
def matchNumAt (allowFrac : Bool) (unit : List Char) (hay : List Char) : Option ℚ :=
  let ds := hay.takeWhile Char.isDigit
  if ds.isEmpty then none
  else
    let rest := hay.drop ds.length
    let fr : List Char :=
      if allowFrac then
        match rest with
        | '.' :: t => t.takeWhile Char.isDigit
        | _ => []
      else []
    let rest2 := if fr.isEmpty then rest else (rest.drop (fr.length + 1))
    let rest3 := rest2.dropWhile Char.isWhitespace
    if List.isPrefixOf unit rest3 then
      some ((digitsVal ds : ℚ) + (digitsVal fr : ℚ) / ((10 : ℚ) ^ fr.length))
    else none

/-- `re.search` scan for the number-then-unit patterns (first match wins). -/
def findNum (allowFrac : Bool) (unit : List Char) : List Char → Option ℚ
  | [] => none
  | c :: t =>
    match (if c.isDigit then matchNumAt allowFrac unit (c :: t) else none) with
    | some v => some v
    | none => findNum allowFrac unit t

/-- The group matched by `\$\s*([0-9,]+(?:\.[0-9]{1,2})?)` starting right after
a `$` sign, if any. -/
def amountFrom (rest : List Char) : Option (List Char) :=
  let r2 := rest.dropWhile Char.isWhitespace
  let g := r2.takeWhile fun c => c.isDigit || c == ','
  if g.isEmpty then none
  else
    let r3 := r2.drop g.length
    match r3 with
    | '.' :: t =>
      let f := (t.takeWhile Char.isDigit).take 2
      if f.isEmpty then some g else some (g ++ '.' :: f)
    | _ => some g

/-- `re.search` scan for the dollar-amount pattern. -/
def findAmount : List Char → Option (List Char)
  | [] => none
  | c :: t =>
    if c == '$' then
      match amountFrom t with
      | some g => some g
      | none => findAmount t
    else findAmount t

/-- `float(m.group(1).replace(',', ''))`: commas are stripped and the remaining
text parsed; an all-comma group leaves the empty string, which `float` rejects
(this is a genuine crash path of the Python code). -/
def parseAmount (g : List Char) : Except PyError ℚ :=
  let s := g.filter fun c => c != ','
  let intPart := s.takeWhile Char.isDigit
  match s.drop intPart.length with
  | [] =>
    if intPart.isEmpty then .error (.valueError "could not convert string to float")
    else .ok (digitsVal intPart : ℚ)
  | '.' :: f => .ok ((digitsVal intPart : ℚ) + (digitsVal f : ℚ) / ((10 : ℚ) ^ f.length))
  | _ => .error (.valueError "could not convert string to float")

/-- The partial mapping of quantity kinds extracted for a clause
(`numeric_values`); an unset key is `none`, never zero. -/
structure NumVals where
  amount : Option ℚ := none
  weeks : Option ℚ := none
  days : Option ℚ := none
  months : Option ℚ := none
  deriving DecidableEq, Repr

/-- Python truthiness of the `numeric_values` dict. -/
def NumVals.isEmpty (n : NumVals) : Bool :=
  n.amount.isNone && n.weeks.isNone && n.days.isNone && n.months.isNone

/-- `extract_numbers_from_text`: best-effort extraction of `$` amounts, week,
day and month counts from free text. -/
def extract_numbers_from_text (text : String) : Except PyError NumVals :=
  let low := lowerL text.data
  let weeks := findNum true "week".data low
  let days := findNum false "day".data low
  let months := findNum false "month".data low
  match findAmount text.data with
  | some g =>
    match parseAmount g with
    | .error e => .error e
    | .ok amt => .ok { amount := some amt, weeks := weeks, days := days, months := months }
  | none => .ok { amount := none, weeks := weeks, days := days, months := months }

/-! ### Data model: clause records and jurisdiction rule tables -/

/-- A clause record, a Python dict with optional keys.  `type` defaults to
`"unknown"`, `text` to `""` when absent.  `weekly_rent` distinguishes an
absent key (`none`) from a key present with Python's `None` (`some none`) or a
number (`some (some r)`), since the bond branch tests both `clause.get(...)`
truthiness and `"weekly_rent" not in clause`. -/
structure Clause where
  type : Option String := none
  numeric_values : Option NumVals := none
  text : Option String := none
  weekly_rent : Option (Option ℚ) := none
  deriving DecidableEq, Repr

/-- Truthiness of `clause.get("weekly_rent")`: a present non-`None`, non-zero
number. -/
def Clause.rentTruthy (c : Clause) : Option ℚ :=
  match c.weekly_rent with
  | some (some r) => if r = 0 then none else some r
  | _ => none

structure WeeksRules where
  max_weeks : Option ℚ := none
  deriving DecidableEq, Repr

structure RentIncreaseRules where
  min_notice_days : Option ℚ := none
  max_frequency_months : Option ℚ := none
  deriving DecidableEq, Repr

structure EntryNoticeRules where
  routine_inspection : Option ℚ := none
  deriving DecidableEq, Repr

structure EvictionRules where
  minimum_notice_days : Option ℚ := none
  deriving DecidableEq, Repr

/-- One jurisdiction's entry of `STATE_RULES`; a missing category key is
`none`. -/
structure StateRules where
  bond : Option WeeksRules := none
  break_lease_fee : Option WeeksRules := none
  rent_increase : Option RentIncreaseRules := none
  entry_notice_days : Option EntryNoticeRules := none
  eviction : Option EvictionRules := none
  deriving DecidableEq, Repr

def STATE_RULES_NSW : StateRules :=
  { bond := some { max_weeks := some 4 },
    break_lease_fee := some { max_weeks := some 4 },
    rent_increase := some { min_notice_days := some 60, max_frequency_months := some 12 },
    entry_notice_days := some { routine_inspection := some 7 },
    eviction := some { minimum_notice_days := some 90 } }

def STATE_RULES_VIC : StateRules :=
  { bond := some { max_weeks := some 4 },
    rent_increase := some { min_notice_days := some 60, max_frequency_months := some 12 },
    entry_notice_days := some { routine_inspection := some 24 },
    eviction := some { minimum_notice_days := some 60 } }

/-- `STATE_RULES` lookup by state code. -/
def STATE_RULES (s : String) : Option StateRules :=
  if s = "NSW" then some STATE_RULES_NSW
  else if s = "VIC" then some STATE_RULES_VIC
  else none

/-- `state_rules.get("bond", {}).get("max_weeks", 4)`. -/
def bondMaxWeeks (ru : StateRules) : ℚ :=
  (ru.bond.bind fun b => b.max_weeks).getD 4

/-- `state_rules.get("break_lease_fee", {}).get("max_weeks", 4)`. -/
def blfMaxWeeks (ru : StateRules) : ℚ :=
  (ru.break_lease_fee.bind fun b => b.max_weeks).getD 4

/-- `state_rules.get("rent_increase", {}).get("min_notice_days", 60)`. -/
def rentMinNotice (ru : StateRules) : ℚ :=
  (ru.rent_increase.bind fun b => b.min_notice_days).getD 60

/-- `state_rules.get("rent_increase", {}).get("max_frequency_months", 12)`. -/
def rentMaxFreq (ru : StateRules) : ℚ :=
  (ru.rent_increase.bind fun b => b.max_frequency_months).getD 12

/-- `state_rules.get("entry_notice_days", {}).get("routine_inspection")` —
note: no numeric default, the engine then tests truthiness. -/
def entryAllowed (ru : StateRules) : Option ℚ :=
  ru.entry_notice_days.bind fun b => b.routine_inspection

/-! ### Reasons -/

/-- One entry of the `reasons` list, one constructor per `reasons.append(...)`
site of the source, carrying every interpolated value. -/
inductive Reason where
  | bondWeeks (w maxw : ℚ) (code : String)
  | bondAmount (a maxa maxw wr : ℚ)
  | bondCannotValidate
  | blfWeeks (w maxw : ℚ) (code : String)
  | blfAmount (a maxa maxw wr : ℚ)
  | rentNoticeDays (d minn : ℚ) (code : String)
  | rentFrequency (m maxf : ℚ)
  | entryNotice (d allowed : ℚ) (code : String)
  | fairness (rtext : String)
  | penaltyExcessive (w : ℚ)
  | absoluteLanguage
  | llmIllegal (expl : String)
  | llmUnfair (expl : String)
  | llmManual (expl : String)
  deriving DecidableEq, Repr

def puStr : String := "Potentially unfair"

/-- Whether the rendered reason string contains the (case-sensitive) substring
`"Potentially unfair"`, as tested by the verdict decision.  Fairness-pattern
reasons are rendered `"Potentially unfair: …"` and always contain it; the
fixed texts of the other constructors never do, but an interpolated string
payload (the caller's `state_code`, an oracle explanation) still can.  Numeric
payloads render as digits and cannot contribute. -/
def Reason.mentionsPU : Reason → Bool
  | .bondWeeks _ _ code => containsL puStr.data code.data
  | .bondAmount _ _ _ _ => false
  | .bondCannotValidate => false
  | .blfWeeks _ _ code => containsL puStr.data code.data
  | .blfAmount _ _ _ _ => false
  | .rentNoticeDays _ _ code => containsL puStr.data code.data
  | .rentFrequency _ _ => false
  | .entryNotice _ _ code => containsL puStr.data code.data
  | .fairness _ => true
  | .penaltyExcessive _ => false
  | .absoluteLanguage => false
  | .llmIllegal e => containsL puStr.data e.data
  | .llmUnfair e => containsL puStr.data e.data
  | .llmManual e => containsL puStr.data e.data

/-! ### Fairness data -/

/-- `FAIRNESS_PATTERNS`: (compiled pattern, reason text, severity).  Each
regex of the source is rendered as the corresponding search function. -/
def FAIRNESS_PATTERNS : List ((String → Bool) × String × ℚ) :=
  [(fun t => ciContains t "unrestricted access",
    "Landlord claims unrestricted access to the property", 8),
   (fun t => ciSeq t "all repairs" "tenant",
    "Clause makes tenant responsible for all repairs, including structural", 9),
   (fun t => ciSeq t "no refund" "bond",
    "Bond declared non-refundable without cause", 8),
   (fun t => ciSeq t "terminate" "without notice" || ciContains t "terminate at any time",
    "Landlord can terminate without notice", 10),
   (fun t => ciSeq t "tenant must pay" "legal fees",
    "Tenant required to pay landlord\x27s legal fees", 7)]

/-- `FAIRNESS_THRESHOLDS["penalty_weeks_upper_bound"]`. -/
def penalty_weeks_upper_bound : ℚ := 2

/-- `FAIRNESS_THRESHOLDS["excessive_fee_ratio"]` (present in the data, unused
by the evaluation). -/
def excessive_fee_ratio : ℚ := 3 / 2

/-- The phrases of the absolute-language regex
`\b(no refund|no liability|at any time|without notice)\b`. -/
def ABSOLUTE_PHRASES : List String :=
  ["no refund", "no liability", "at any time", "without notice"]

/-! ### Check effects -/

/-- The effect of one check of the assessor on the running state: whether it
sets `illegal`, what it appends to `reasons`, and what it subtracts from
`score` (the deduction is signed so that "checks only ever subtract" is a
provable statement, not a typing artifact). -/
structure CheckEffect where
  illegal : Bool := false
  reasons : List Reason := []
  deduction : ℚ := 0
  deriving DecidableEq, Repr

/-! ### Reasoning oracle adapter (`call_llm_for_clause`) -/

/-- Behaviour of the external `llm_adapters.llm_query` call on this clause's
prompt: the string it returned, or the message of the exception it raised. -/
inductive QueryOutcome where
  | success (raw : String)
  | failure (msg : String)
  deriving DecidableEq, Repr

/-- The structured opinion read off a parsed JSON dict through
`get("verdict", "")`, `get("explanation", "")`,
`get("recommended_action", "")`. -/
structure Opinion where
  verdict : String := ""
  explanation : String := ""
  recommended_action : String := ""
  deriving DecidableEq, Repr

def openBrace : Char := '\x7b'
def closeBrace : Char := '\x7d'

def dropToOpen : List Char → Option (List Char)
  | [] => none
  | c :: t => if c = openBrace then some (c :: t) else dropToOpen t

def dropToClose : List Char → Option (List Char)
  | [] => none
  | c :: t => if c = closeBrace then some (c :: t) else dropToClose t

/-- `re.search(r"\{.*\}", raw, re.S)`: the greedy match runs from the first
opening brace to the last closing brace after it, if any. -/
def find_braced (raw : String) : Option String :=
  match dropToOpen raw.data with
  | none => none
  | some l =>
    match l with
    | [] => none
    | b :: rest =>
      match dropToClose rest.reverse with
      | none => none
      | some r2 => some (String.mk (b :: r2.reverse))

/-- `call_llm_for_clause`: ask the adapter, dig a JSON object out of the
response, and degrade every failure into a "Needs Manual Review" opinion.
`llm = none` models `LLM_AVAILABLE = False`; `parse` models `json.loads`
followed by the keyed reads, returning the decode-error message on failure. -/
def call_llm_for_clause (llm : Option QueryOutcome)
    (parse : String → Except String Opinion) : Option Opinion :=
  match llm with
  | none => none
  | some (.failure e) =>
    some { verdict := "Needs Manual Review", explanation := "LLM call failed: " ++ e,
           recommended_action := "Retry LLM or fallback" }
  | some (.success raw) =>
    match find_braced raw with
    | some s =>
      match parse s with
      | .ok j => some j
      | .error e =>
        some { verdict := "Needs Manual Review", explanation := "LLM call failed: " ++ e,
               recommended_action := "Retry LLM or fallback" }
    | none =>
      match parse raw with
      | .ok j => some j
      | .error _ =>
        some { verdict := "Needs Manual Review",
               explanation := String.mk (raw.data.take 1000),
               recommended_action := "Ask legal counsel" }

/-! ### The per-category checks of `assess_clause_legality_hybrid` -/

/-- The bond branch (an `if`/`elif` chain: the three sub-checks are mutually
exclusive). -/
def bondCheck (ctype : String) (nums : NumVals) (clause : Clause)
    (ru : StateRules) (code : String) : CheckEffect :=
  if ctype = "bond" then
    match nums.weeks with
    | some w =>
      if bondMaxWeeks ru < w then
        { illegal := true, reasons := [.bondWeeks w (bondMaxWeeks ru) code], deduction := 40 }
      else {}
    | none =>
      match nums.amount with
      | some a =>
        match clause.rentTruthy with
        | some wr =>
          if wr * bondMaxWeeks ru < a then
            { illegal := true,
              reasons := [.bondAmount a (wr * bondMaxWeeks ru) (bondMaxWeeks ru) wr],
              deduction := 40 }
          else {}
        | none =>
          if clause.weekly_rent = none then
            { reasons := [.bondCannotValidate], deduction := 5 }
          else {}
      | none => {}
  else {}

/-- The week sub-check of the break-lease branch. -/
def blfWeekEffect (nums : NumVals) (ru : StateRules) (code : String) : CheckEffect :=
  match nums.weeks with
  | some w =>
    if blfMaxWeeks ru < w then
      { illegal := true, reasons := [.blfWeeks w (blfMaxWeeks ru) code], deduction := 35 }
    else {}
  | none => {}

/-- The break-lease-fee branch: two independent sub-checks; the currency
sub-check reads the `weekly_rent` value whenever the key is present, so a key
present with `None` raises a `TypeError` at `weekly_rent * max_weeks`. -/
def breakLeaseCheck (ctype : String) (nums : NumVals) (clause : Clause)
    (ru : StateRules) (code : String) : Except PyError CheckEffect :=
  if ctype = "break_lease_fee" then
    match nums.amount, clause.weekly_rent with
    | some a, some wrOpt =>
      match wrOpt with
      | none => .error (.typeError "unsupported operand types for *: NoneType and int")
      | some wr =>
        if wr * blfMaxWeeks ru < a then
          .ok { illegal := true,
                reasons := (blfWeekEffect nums ru code).reasons
                  ++ [.blfAmount a (wr * blfMaxWeeks ru) (blfMaxWeeks ru) wr],
                deduction := (blfWeekEffect nums ru code).deduction + 35 }
        else .ok (blfWeekEffect nums ru code)
    | _, _ => .ok (blfWeekEffect nums ru code)
  else .ok {}

/-- The notice-days sub-check of the rent-increase branch. -/
def rentDayEffect (nums : NumVals) (ru : StateRules) (code : String) : CheckEffect :=
  match nums.days with
  | some d =>
    if d < rentMinNotice ru then
      { illegal := true, reasons := [.rentNoticeDays d (rentMinNotice ru) code],
        deduction := 30 }
    else {}
  | none => {}

/-- The rent-increase branch: two independent, additive sub-checks. -/
def rentIncreaseCheck (ctype : String) (nums : NumVals) (ru : StateRules)
    (code : String) : CheckEffect :=
  if ctype = "rent_increase" then
    match nums.months with
    | some m =>
      if m < rentMaxFreq ru then
        { illegal := true,
          reasons := (rentDayEffect nums ru code).reasons ++ [.rentFrequency m (rentMaxFreq ru)],
          deduction := (rentDayEffect nums ru code).deduction + 30 }
      else rentDayEffect nums ru code
    | none => rentDayEffect nums ru code
  else {}

/-- The entry branch: triggered by the `entry` category or the substring
`"entry"` in the lowercased text; advisory only, never sets `illegal`. -/
def entryCheck (ctype : String) (nums : NumVals) (text : String)
    (ru : StateRules) (code : String) : CheckEffect :=
  if ctype = "entry" ∨ containsL "entry".data (lowerL text.data) = true then
    match nums.days with
    | some d =>
      match entryAllowed ru with
      | some allowed =>
        if allowed ≠ 0 ∧ d < allowed then
          { reasons := [.entryNotice d allowed code], deduction := 10 }
        else {}
      | none => {}
    | none => {}
  else {}

/-- The fairness-pattern pass: every pattern is tried independently; a match
appends a `"Potentially unfair: …"` reason and deducts `severity * 2`. -/
def fairnessEffects (text : String) : List CheckEffect :=
  FAIRNESS_PATTERNS.map fun p =>
    if p.1 text then { reasons := [.fairness p.2.1], deduction := p.2.2 * 2 } else {}

/-- The penalty heuristic: a fairness check, never sets `illegal`. -/
def penaltyCheck (ctype : String) (nums : NumVals) : CheckEffect :=
  if ctype = "penalty" then
    match nums.weeks with
    | some w =>
      if penalty_weeks_upper_bound < w then
        { reasons := [.penaltyExcessive w], deduction := 20 }
      else {}
    | none => {}
  else {}

/-- The absolute-language flag. -/
def absoluteCheck (text : String) : CheckEffect :=
  if ciWordBounded text ABSOLUTE_PHRASES then
    { reasons := [.absoluteLanguage], deduction := 15 }
  else {}

/-- Integration of the oracle opinion: the verdict text is matched
case-insensitively by substring containment in priority order. -/
def llmCheck (opin : Option Opinion) : CheckEffect :=
  match opin with
  | none => {}
  | some o =>
    if containsL "illegal".data (lowerL o.verdict.data) then
      { illegal := true, reasons := [.llmIllegal o.explanation], deduction := 30 }
    else if containsL "potentially unfair".data (lowerL o.verdict.data)
        || containsL "unfair".data (lowerL o.verdict.data) then
      { reasons := [.llmUnfair o.explanation], deduction := 20 }
    else if containsL "needs manual".data (lowerL o.verdict.data)
        || containsL "manual".data (lowerL o.verdict.data) then
      { reasons := [.llmManual o.explanation], deduction := 10 }
    else {}

/-! ### Score rounding -/

/-- Nearest integer, ties to even (Python's `round`). -/
def roundHalfEven (x : ℚ) : ℤ :=
  if x - (⌊x⌋ : ℚ) < 1 / 2 then ⌊x⌋
  else if 1 / 2 < x - (⌊x⌋ : ℚ) then ⌊x⌋ + 1
  else if ⌊x⌋ % 2 = 0 then ⌊x⌋ else ⌊x⌋ + 1

/-- `round(x, 1)`. -/
def round1 (x : ℚ) : ℚ := (roundHalfEven (x * 10) : ℚ) / 10

/-! ### Assembling the assessment -/

/-- The per-clause assessment record returned by the assessor. -/
structure AssessResult where
  verdict : String
  score : ℚ
  illegal : Bool
  reasons : List Reason
  llm_explanation : Option Opinion
  clause : Clause
  deriving DecidableEq, Repr

/-- Numeric resolution (step 1): if `numeric_values` is absent or empty, run
the extractor on the text; a non-empty extraction is written back onto the
clause. -/
def resolveNums (clause : Clause) : Except PyError (NumVals × Clause) :=
  let nums0 := clause.numeric_values.getD {}
  if nums0.isEmpty then
    match extract_numbers_from_text (clause.text.getD "") with
    | .error e => .error e
    | .ok ext =>
      if ext.isEmpty then .ok (nums0, clause)
      else .ok (ext, { clause with numeric_values := some ext })
  else .ok (nums0, clause)

/-- All checks of the assessor, in source order; only the break-lease branch
can raise. -/
def checksOf (ctype : String) (nums : NumVals) (clause : Clause) (text : String)
    (ru : StateRules) (code : String) (opin : Option Opinion) :
    Except PyError (List CheckEffect) :=
  match breakLeaseCheck ctype nums clause ru code with
  | .error e => .error e
  | .ok blf =>
    .ok ([bondCheck ctype nums clause ru code, blf,
          rentIncreaseCheck ctype nums ru code,
          entryCheck ctype nums text ru code]
         ++ fairnessEffects text
         ++ [penaltyCheck ctype nums, absoluteCheck text, llmCheck opin])

/-- Fold the check effects into the returned record: `illegal` is the
disjunction, `reasons` the concatenation, the score is 100 minus the summed
deductions clamped to [0, 100], and the verdict is decided in priority order
on the clamped (pre-rounding) score. -/
def mkResult (effs : List CheckEffect) (opin : Option Opinion) (clause' : Clause) :
    AssessResult :=
  let illegal := effs.any fun e => e.illegal
  let reasons := (effs.map fun e => e.reasons).flatten
  let score2 : ℚ := max 0 (min 100 (100 - (effs.map fun e => e.deduction).sum))
  let verdict :=
    if illegal then "Illegal"
    else if score2 < 60 ∨ reasons.any Reason.mentionsPU = true then "Potentially Unfair"
    else if score2 < 80 ∧ reasons ≠ [] then "Needs Manual Review"
    else "Legal"
  { verdict := verdict, score := round1 score2, illegal := illegal, reasons := reasons,
    llm_explanation := opin, clause := clause' }

/-- `assess_clause_legality_hybrid`, instrumented to also return the list of
individual check effects it folded. -/
def assessFull (clause : Clause) (ru : StateRules) (code : String)
    (llm : Option QueryOutcome) (parse : String → Except String Opinion) :
    Except PyError (List CheckEffect × AssessResult) :=
  match resolveNums clause with
  | .error e => .error e
  | .ok (nums, clause') =>
    match checksOf (clause.type.getD "unknown") nums clause' (clause.text.getD "") ru code
        (call_llm_for_clause llm parse) with
    | .error e => .error e
    | .ok effs => .ok (effs, mkResult effs (call_llm_for_clause llm parse) clause')

/-- `assess_clause_legality_hybrid`: the per-clause assessment. -/
def assess_clause_legality_hybrid (clause : Clause) (ru : StateRules) (code : String)
    (llm : Option QueryOutcome) (parse : String → Except String Opinion) :
    Except PyError AssessResult :=
  (assessFull clause ru code llm parse).map fun p => p.2

/-- The individual check effects of one assessment. -/
def assessChecks (clause : Clause) (ru : StateRules) (code : String)
    (llm : Option QueryOutcome) (parse : String → Except String Opinion) :
    Except PyError (List CheckEffect) :=
  (assessFull clause ru code llm parse).map fun p => p.1

/-! ### Contract-level evaluation -/

/-- The contract report of `evaluate_contract`. -/
structure Report where
  state : String
  overall_verdict : String
  average_score : ℚ
  illegal_count : ℕ
  clauses_evaluated : ℕ
  results : List AssessResult
  deriving DecidableEq, Repr

/-- Python's `str.upper` (ASCII-faithful for the state codes at hand). -/
def upperS (s : String) : String := String.mk (s.data.map Char.toUpper)

/-- `evaluate_contract`: assess every clause (an exception from any assessment
propagates) and aggregate.  `llm = none` models `LLM_AVAILABLE = False`;
otherwise the adapter's behaviour may depend on the clause (its prompt). -/
def evaluate_contract (clauses : List Clause) (state : String)
    (llm : Option (Clause → QueryOutcome)) (parse : String → Except String Opinion) :
    Except PyError Report :=
  let ru := (STATE_RULES (upperS state)).getD {}
  match clauses.mapM (fun c =>
      assess_clause_legality_hybrid c ru (upperS state) (llm.map fun f => f c) parse) with
  | .error e => .error e
  | .ok results =>
    let scores := results.map fun r => r.score
    let avg : ℚ := if scores.isEmpty then 100 else scores.sum / (scores.length : ℚ)
    let illegal_count := results.countP fun r => r.illegal
    let pu := results.countP fun r => r.verdict == "Potentially Unfair"
    let overall :=
      if 0 < illegal_count then "Contains Illegal Clauses"
      else if 0 < pu ∨ avg < 70 then "Potentially Unfair — Review Recommended"
      else "Legal"
    .ok { state := state, overall_verdict := overall, average_score := round1 avg,
          illegal_count := illegal_count, clauses_evaluated := results.length,
          results := results }

/-- A `json.loads` stand-in that fails on every input (no well-formed JSON at
hand), used for concrete evaluations where the oracle is absent or failing. -/
def noParse : String → Except String Opinion := fun _ => .error "Expecting value"

/-! ### Helper lemmas -/

theorem round1_intCast (z : ℤ) : round1 ((z : ℚ)) = (z : ℚ) := by
  have h : ((z : ℚ)) * 10 = ((z * 10 : ℤ) : ℚ) := by push_cast; ring
  unfold round1 roundHalfEven
  rw [h, Int.floor_intCast]
  rw [if_pos (by simp)]
  push_cast
  ring

/-- The clamped score `max 0 (min 100 (100 - n))` for a natural total
deduction `n` is an integer, so one-decimal rounding leaves it unchanged. -/
theorem round1_clamp_nat (n : ℕ) :
    round1 (max 0 (min 100 (100 - (n : ℚ)))) = max 0 (min 100 (100 - (n : ℚ))) := by
  rcases le_total ((n : ℚ)) 100 with h | h
  · have h1 : (100 : ℚ) - n ≤ 100 := by linarith [Nat.cast_nonneg (α := ℚ) n]
    have h2 : (0 : ℚ) ≤ 100 - n := by linarith
    rw [min_eq_right h1, max_eq_right h2]
    have h3 : (100 : ℚ) - n = ((100 - (n : ℤ) : ℤ) : ℚ) := by push_cast; ring
    rw [h3, round1_intCast]
  · have h1 : (100 : ℚ) - n ≤ 100 := by linarith
    have h2 : (100 : ℚ) - n ≤ 0 := by linarith
    rw [min_eq_right h1, max_eq_left h2]
    have h3 : (0 : ℚ) = (((0 : ℤ)) : ℚ) := by norm_num
    rw [h3, round1_intCast]

theorem natDed_bond (ct : String) (nums : NumVals) (c : Clause) (ru : StateRules)
    (co : String) : ∃ n : ℕ, (bondCheck ct nums c ru co).deduction = (n : ℚ) := by
  unfold bondCheck
  split
  · split
    · split
      · exact ⟨40, by norm_num⟩
      · exact ⟨0, by norm_num⟩
    · split
      · split
        · split
          · exact ⟨40, by norm_num⟩
          · exact ⟨0, by norm_num⟩
        · split
          · exact ⟨5, by norm_num⟩
          · exact ⟨0, by norm_num⟩
      · exact ⟨0, by norm_num⟩
  · exact ⟨0, by norm_num⟩

theorem natDed_blfWeek (nums : NumVals) (ru : StateRules) (co : String) :
    ∃ n : ℕ, (blfWeekEffect nums ru co).deduction = (n : ℚ) := by
  unfold blfWeekEffect
  split
  · split
    · exact ⟨35, by norm_num⟩
    · exact ⟨0, by norm_num⟩
  · exact ⟨0, by norm_num⟩

theorem natDed_blf (ct : String) (nums : NumVals) (c : Clause) (ru : StateRules)
    (co : String) (eff : CheckEffect) (h : breakLeaseCheck ct nums c ru co = .ok eff) :
    ∃ n : ℕ, eff.deduction = (n : ℚ) := by
  obtain ⟨k, hk⟩ := natDed_blfWeek nums ru co
  unfold breakLeaseCheck at h
  split at h
  · split at h
    · split at h
      · exact absurd h (by simp)
      · split at h
        · obtain rfl : _ = eff := by injection h
          exact ⟨k + 35, by push_cast [hk]; ring⟩
        · obtain rfl : _ = eff := by injection h
          exact ⟨k, hk⟩
    · obtain rfl : _ = eff := by injection h
      exact ⟨k, hk⟩
  · obtain rfl : _ = eff := by injection h
    exact ⟨0, by norm_num⟩

theorem natDed_rentDay (nums : NumVals) (ru : StateRules) (co : String) :
    ∃ n : ℕ, (rentDayEffect nums ru co).deduction = (n : ℚ) := by
  unfold rentDayEffect
  split
  · split
    · exact ⟨30, by norm_num⟩
    · exact ⟨0, by norm_num⟩
  · exact ⟨0, by norm_num⟩

theorem natDed_rent (ct : String) (nums : NumVals) (ru : StateRules) (co : String) :
    ∃ n : ℕ, (rentIncreaseCheck ct nums ru co).deduction = (n : ℚ) := by
  obtain ⟨k, hk⟩ := natDed_rentDay nums ru co
  unfold rentIncreaseCheck
  split
  · split
    · split
      · exact ⟨k + 30, by push_cast [hk]; ring⟩
      · exact ⟨k, hk⟩
    · exact ⟨k, hk⟩
  · exact ⟨0, by norm_num⟩

theorem natDed_entry (ct : String) (nums : NumVals) (text : String) (ru : StateRules)
    (co : String) : ∃ n : ℕ, (entryCheck ct nums text ru co).deduction = (n : ℚ) := by
  unfold entryCheck
  split
  · split
    · split
      · split
        · exact ⟨10, by norm_num⟩
        · exact ⟨0, by norm_num⟩
      · exact ⟨0, by norm_num⟩
    · exact ⟨0, by norm_num⟩
  · exact ⟨0, by norm_num⟩

theorem natDed_fairness (text : String) (eff : CheckEffect)
    (h : eff ∈ fairnessEffects text) : ∃ n : ℕ, eff.deduction = (n : ℚ) := by
  unfold fairnessEffects FAIRNESS_PATTERNS at h
  simp only [List.mem_map, List.mem_cons, List.not_mem_nil, or_false] at h
  obtain ⟨p, hp, rfl⟩ := h
  rcases hp with rfl | rfl | rfl | rfl | rfl
  · split
    · exact ⟨16, by norm_num⟩
    · exact ⟨0, by norm_num⟩
  · split
    · exact ⟨18, by norm_num⟩
    · exact ⟨0, by norm_num⟩
  · split
    · exact ⟨16, by norm_num⟩
    · exact ⟨0, by norm_num⟩
  · split
    · exact ⟨20, by norm_num⟩
    · exact ⟨0, by norm_num⟩
  · split
    · exact ⟨14, by norm_num⟩
    · exact ⟨0, by norm_num⟩

theorem natDed_penalty (ct : String) (nums : NumVals) :
    ∃ n : ℕ, (penaltyCheck ct nums).deduction = (n : ℚ) := by
  unfold penaltyCheck
  split
  · split
    · split
      · exact ⟨20, by norm_num⟩
      · exact ⟨0, by norm_num⟩
    · exact ⟨0, by norm_num⟩
  · exact ⟨0, by norm_num⟩

theorem natDed_absolute (text : String) :
    ∃ n : ℕ, (absoluteCheck text).deduction = (n : ℚ) := by
  unfold absoluteCheck
  split
  · exact ⟨15, by norm_num⟩
  · exact ⟨0, by norm_num⟩

theorem natDed_llm (opin : Option Opinion) :
    ∃ n : ℕ, (llmCheck opin).deduction = (n : ℚ) := by
  unfold llmCheck
  split
  · exact ⟨0, by norm_num⟩
  · split
    · exact ⟨30, by norm_num⟩
    · split
      · exact ⟨20, by norm_num⟩
      · split
        · exact ⟨10, by norm_num⟩
        · exact ⟨0, by norm_num⟩

theorem sum_natDed (l : List ℚ) (h : ∀ q ∈ l, ∃ n : ℕ, q = (n : ℚ)) :
    ∃ N : ℕ, l.sum = (N : ℚ) := by
  induction l with
  | nil => exact ⟨0, by simp⟩
  | cons q t ih =>
    obtain ⟨n, hn⟩ := h q (by simp)
    obtain ⟨N, hN⟩ := ih fun x hx => h x (by simp [hx])
    exact ⟨n + N, by rw [List.sum_cons, hn, hN]; push_cast; ring⟩

/-- Shape of a successful `checksOf`: the list of effects in source order,
with a successful break-lease check. -/
theorem checksOf_ok (ct : String) (nums : NumVals) (c : Clause) (text : String)
    (ru : StateRules) (co : String) (opin : Option Opinion) (effs : List CheckEffect)
    (h : checksOf ct nums c text ru co opin = .ok effs) :
    ∃ blf, breakLeaseCheck ct nums c ru co = .ok blf ∧
      effs = [bondCheck ct nums c ru co, blf, rentIncreaseCheck ct nums ru co,
              entryCheck ct nums text ru co]
             ++ fairnessEffects text
             ++ [penaltyCheck ct nums, absoluteCheck text, llmCheck opin] := by
  unfold checksOf at h
  split at h
  · exact absurd h (by simp)
  · next blf heq =>
    obtain rfl : _ = effs := by injection h
    exact ⟨blf, heq, rfl⟩

/-- Every deduction among the effects of a successful `checksOf` is a natural
number. -/
theorem checksOf_natDed (ct : String) (nums : NumVals) (c : Clause) (text : String)
    (ru : StateRules) (co : String) (opin : Option Opinion) (effs : List CheckEffect)
    (h : checksOf ct nums c text ru co opin = .ok effs) :
    ∀ eff ∈ effs, ∃ n : ℕ, eff.deduction = (n : ℚ) := by
  obtain ⟨blf, hblf, rfl⟩ := checksOf_ok ct nums c text ru co opin effs h
  intro eff heff
  simp only [List.append_assoc, List.mem_append, List.mem_cons, List.not_mem_nil,
    or_false, List.mem_singleton] at heff
  rcases heff with (rfl | rfl | rfl | rfl) | hf | rfl | rfl | rfl
  · exact natDed_bond ct nums c ru co
  · exact natDed_blf ct nums c ru co _ hblf
  · exact natDed_rent ct nums ru co
  · exact natDed_entry ct nums text ru co
  · exact natDed_fairness text eff hf
  · exact natDed_penalty ct nums
  · exact natDed_absolute text
  · exact natDed_llm opin

/-- Shape of a successful instrumented assessment. -/
theorem assessFull_ok (c : Clause) (ru : StateRules) (co : String)
    (llm : Option QueryOutcome) (parse : String → Except String Opinion)
    (pr : List CheckEffect × AssessResult)
    (h : assessFull c ru co llm parse = .ok pr) :
    ∃ nums c' effs, resolveNums c = .ok (nums, c') ∧
      checksOf (c.type.getD "unknown") nums c' (c.text.getD "") ru co
        (call_llm_for_clause llm parse) = .ok effs ∧
      pr = (effs, mkResult effs (call_llm_for_clause llm parse) c') := by
  unfold assessFull at h
  split at h
  · exact absurd h (by simp)
  · next nums c' heq =>
    split at h
    · exact absurd h (by simp)
    · next effs heq2 =>
      obtain rfl : _ = pr := by injection h
      exact ⟨nums, c', effs, heq, heq2, rfl⟩

/-- The total deduction of a successful assessment is a natural number. -/
theorem assessFull_sum_nat (c : Clause) (ru : StateRules) (co : String)
    (llm : Option QueryOutcome) (parse : String → Except String Opinion)
    (effs : List CheckEffect) (r : AssessResult)
    (h : assessFull c ru co llm parse = .ok (effs, r)) :
    ∃ N : ℕ, (effs.map fun e => e.deduction).sum = (N : ℚ) := by
  obtain ⟨nums, c', effs', _, hch, hpr⟩ := assessFull_ok c ru co llm parse _ h
  obtain ⟨rfl, rfl⟩ : effs' = effs ∧ mkResult effs' (call_llm_for_clause llm parse) c' = r := by
    constructor <;> [skip; skip] <;> cases hpr <;> rfl
  apply sum_natDed
  intro q hq
  simp only [List.mem_map] at hq
  obtain ⟨eff, heff, rfl⟩ := hq
  exact checksOf_natDed _ _ _ _ _ _ _ _ hch eff heff

theorem assess_ok_iff (c : Clause) (ru : StateRules) (co : String)
    (llm : Option QueryOutcome) (parse : String → Except String Opinion) (r : AssessResult) :
    assess_clause_legality_hybrid c ru co llm parse = .ok r ↔
      ∃ effs, assessFull c ru co llm parse = .ok (effs, r) := by
  unfold assess_clause_legality_hybrid
  cases hf : assessFull c ru co llm parse with
  | error e => simp [Except.map]
  | ok pr =>
    obtain ⟨effs, x⟩ := pr
    simp only [Except.map]
    constructor
    · intro h
      obtain rfl : x = r := by injection h
      exact ⟨effs, rfl⟩
    · rintro ⟨effs', heq⟩
      obtain ⟨h1, h2⟩ : effs = effs' ∧ x = r := by
        injection heq with h3
        injection h3 with h1 h2
        exact ⟨h1, h2⟩
      rw [h2]

theorem assessChecks_ok_iff (c : Clause) (ru : StateRules) (co : String)
    (llm : Option QueryOutcome) (parse : String → Except String Opinion)
    (effs : List CheckEffect) :
    assessChecks c ru co llm parse = .ok effs ↔
      ∃ r, assessFull c ru co llm parse = .ok (effs, r) := by
  unfold assessChecks
  cases hf : assessFull c ru co llm parse with
  | error e => simp [Except.map]
  | ok pr =>
    obtain ⟨effs', x⟩ := pr
    simp only [Except.map]
    constructor
    · intro h
      obtain rfl : effs' = effs := by injection h
      exact ⟨x, rfl⟩
    · rintro ⟨r, heq⟩
      obtain ⟨h1, h2⟩ : effs' = effs ∧ x = r := by
        injection heq with h3
        injection h3 with h1 h2
        exact ⟨h1, h2⟩
      rw [h1]

/-- The score returned by a successful assessment is exactly the clamped
`100 - total deduction` (the one-decimal rounding is the identity there). -/
theorem assess_score_eq (c : Clause) (ru : StateRules) (co : String)
    (llm : Option QueryOutcome) (parse : String → Except String Opinion)
    (effs : List CheckEffect) (r : AssessResult)
    (h : assessFull c ru co llm parse = .ok (effs, r)) :
    r.score = max 0 (min 100 (100 - (effs.map fun e => e.deduction).sum)) := by
  obtain ⟨N, hN⟩ := assessFull_sum_nat c ru co llm parse effs r h
  obtain ⟨nums, c', effs', hres, hch, hpr⟩ := assessFull_ok c ru co llm parse _ h
  obtain ⟨h1, h2⟩ : effs = effs' ∧ r = mkResult effs' (call_llm_for_clause llm parse) c' := by
    injection hpr with h1 h2
    exact ⟨h1, h2⟩
  subst h1
  subst h2
  simp only [mkResult]
  rw [hN, round1_clamp_nat]

/-- Mapping over an `Except` preserves exactly the error outcomes. -/
theorem except_map_error {A B C : Type} (f : A → B) (x : Except C A) (e : C) :
    x.map f = .error e ↔ x = .error e := by
  cases x <;> simp [Except.map]

/-- An assessment error comes from numeric resolution or from the break-lease
branch; in particular it never depends on the oracle. -/
theorem assessFull_error (c : Clause) (ru : StateRules) (co : String)
    (llm : Option QueryOutcome) (parse : String → Except String Opinion) (e : PyError)
    (h : assessFull c ru co llm parse = .error e) :
    resolveNums c = .error e ∨ ∃ nums c', resolveNums c = .ok (nums, c') ∧
      breakLeaseCheck (c.type.getD "unknown") nums c' ru co = .error e := by
  cases hres : resolveNums c with
  | error e2 =>
    left
    have h2 : assessFull c ru co llm parse = .error e2 := by
      simp [assessFull, hres]
    rw [h2] at h
    obtain rfl : e2 = e := by injection h
    rfl
  | ok p =>
    obtain ⟨nums, c'⟩ := p
    cases hbl : breakLeaseCheck (c.type.getD "unknown") nums c' ru co with
    | error e2 =>
      have h2 : assessFull c ru co llm parse = .error e2 := by
        simp [assessFull, checksOf, hres, hbl]
      rw [h2] at h
      obtain rfl : e2 = e := by injection h
      exact Or.inr ⟨nums, c', rfl, hbl⟩
    | ok blf =>
      simp [assessFull, checksOf, hres, hbl] at h

/-! ### The claims -/

section Claims

attribute [local semireducible] Rat.mul Rat.inv Rat.add Rat.sub

set_option maxRecDepth 16000

/-- Claim C1: for every clause assessment, the final verdict is decided in
strict priority order: `illegal` forces "Illegal" regardless of score;
otherwise a clamped score below 60 or any reason string containing
"Potentially unfair" gives "Potentially Unfair"; otherwise a score below 80
with a non-empty reason list gives "Needs Manual Review"; otherwise "Legal". -/
theorem C1_verdict_priority (c : Clause) (ru : StateRules) (co : String)
    (llm : Option QueryOutcome) (parse : String → Except String Opinion)
    (r : AssessResult)
    (h : assess_clause_legality_hybrid c ru co llm parse = .ok r) :
    r.verdict =
      if r.illegal then "Illegal"
      else if r.score < 60 ∨ r.reasons.any Reason.mentionsPU = true then "Potentially Unfair"
      else if r.score < 80 ∧ r.reasons ≠ [] then "Needs Manual Review"
      else "Legal" := by
  obtain ⟨effs, hf⟩ := (assess_ok_iff c ru co llm parse r).mp h
  have hsc := assess_score_eq c ru co llm parse effs r hf
  obtain ⟨nums, c', effs', hres, hch, hpr⟩ := assessFull_ok c ru co llm parse _ hf
  obtain ⟨h1, h2⟩ : effs = effs' ∧ r = mkResult effs' (call_llm_for_clause llm parse) c' := by
    injection hpr with h1 h2
    exact ⟨h1, h2⟩
  subst h1
  subst h2
  rw [hsc]
  simp only [mkResult]

/-- A fixed result used to witness the verdict-priority theorem. -/
def legalR0 : AssessResult :=
  { verdict := "Legal", score := 100, illegal := false, reasons := [],
    llm_explanation := none, clause := {} }

theorem C1_verdict_priority_witness :
    assess_clause_legality_hybrid {} STATE_RULES_NSW "NSW" none noParse = .ok legalR0
    ∧ legalR0.verdict =
      (if legalR0.illegal then "Illegal"
       else if legalR0.score < 60 ∨ legalR0.reasons.any Reason.mentionsPU = true then
         "Potentially Unfair"
       else if legalR0.score < 80 ∧ legalR0.reasons ≠ [] then "Needs Manual Review"
       else "Legal") :=
  ⟨by decide, C1_verdict_priority {} STATE_RULES_NSW "NSW" none noParse legalR0 (by decide)⟩

/-- Claim C2: the score starts at 100, every individual check only ever
subtracts from it (each check effect's deduction is non-negative, so the
running score `100 - Σ` is monotonically decreasing), and the returned score
is the clamped value, lying in [0, 100]. -/
theorem C2_score_monotone (c : Clause) (ru : StateRules) (co : String)
    (llm : Option QueryOutcome) (parse : String → Except String Opinion)
    (effs : List CheckEffect) (r : AssessResult)
    (hc : assessChecks c ru co llm parse = .ok effs)
    (h : assess_clause_legality_hybrid c ru co llm parse = .ok r) :
    (∀ eff ∈ effs, 0 ≤ eff.deduction)
    ∧ r.score = max 0 (min 100 (100 - (effs.map fun e => e.deduction).sum))
    ∧ 0 ≤ r.score ∧ r.score ≤ 100 := by
  obtain ⟨r', hf⟩ := (assessChecks_ok_iff c ru co llm parse effs).mp hc
  obtain ⟨effs', hf2⟩ := (assess_ok_iff c ru co llm parse r).mp h
  obtain ⟨h1, h2⟩ : effs = effs' ∧ r = r' := by
    rw [hf] at hf2
    injection hf2 with h3
    injection h3 with h1 h2
    exact ⟨h1, h2.symm⟩
  subst h1
  subst h2
  obtain ⟨nums, c', effs'', hres, hch, hpr⟩ := assessFull_ok c ru co llm parse _ hf
  obtain ⟨h1, -⟩ : effs = effs'' ∧ r = mkResult effs'' (call_llm_for_clause llm parse) c' := by
    injection hpr with h1 h2
    exact ⟨h1, h2⟩
  subst h1
  have hded := checksOf_natDed _ _ _ _ _ _ _ _ hch
  have hsc := assess_score_eq c ru co llm parse effs r hf
  refine ⟨fun eff heff => ?_, hsc, ?_, ?_⟩
  · obtain ⟨n, hn⟩ := hded eff heff
    rw [hn]
    exact Nat.cast_nonneg n
  · rw [hsc]
    exact le_max_left 0 _
  · rw [hsc]
    refine max_le (by norm_num) ?_
    exact min_le_left 100 _

theorem C2_score_monotone_witness :
    assessChecks {} STATE_RULES_NSW "NSW" none noParse = .ok (List.replicate 12 {})
    ∧ assess_clause_legality_hybrid {} STATE_RULES_NSW "NSW" none noParse = .ok legalR0
    ∧ ((∀ eff ∈ (List.replicate 12 ({} : CheckEffect)), 0 ≤ eff.deduction)
       ∧ legalR0.score =
         max 0 (min 100 (100 - ((List.replicate 12 ({} : CheckEffect)).map fun e => e.deduction).sum))
       ∧ 0 ≤ legalR0.score ∧ legalR0.score ≤ 100) :=
  ⟨by decide, by decide,
   C2_score_monotone {} STATE_RULES_NSW "NSW" none noParse (List.replicate 12 {}) legalR0
     (by decide) (by decide)⟩

/-- Claim C4: a bond clause whose numeric values contain a currency amount
(week count absent, so the currency logic is reached) but whose record has no
`weekly_rent` key is never marked illegal: the branch only deducts 5 and
appends the cannot-fully-validate advisory; concretely, a bond clause with
`numeric_values = {amount: 3000}` assesses to `illegal = false`, score 95,
with exactly that advisory reason. -/
theorem C4_bond_no_rent_advisory (nums : NumVals) (c : Clause) (ru : StateRules)
    (co : String) (a : ℚ)
    (hw : nums.weeks = none) (ha : nums.amount = some a) (hr : c.weekly_rent = none) :
    bondCheck "bond" nums c ru co =
      { illegal := false, reasons := [.bondCannotValidate], deduction := 5 }
    ∧ (assess_clause_legality_hybrid
        { type := some "bond", numeric_values := some { amount := some 3000 } }
        STATE_RULES_NSW "NSW" none noParse).map (fun r => (r.illegal, r.score, r.reasons))
      = .ok (false, 95, [.bondCannotValidate]) := by
  constructor
  · simp [bondCheck, Clause.rentTruthy, hw, ha, hr]
  · decide

theorem C4_bond_no_rent_advisory_witness :
    bondCheck "bond" { amount := some 3000 } { type := some "bond" } STATE_RULES_NSW "NSW" =
      { illegal := false, reasons := [.bondCannotValidate], deduction := 5 }
    ∧ (assess_clause_legality_hybrid
        { type := some "bond", numeric_values := some { amount := some 3000 } }
        STATE_RULES_NSW "NSW" none noParse).map (fun r => (r.illegal, r.score, r.reasons))
      = .ok (false, 95, [.bondCannotValidate]) :=
  C4_bond_no_rent_advisory { amount := some 3000 } { type := some "bond" }
    STATE_RULES_NSW "NSW" 3000 rfl rfl rfl

/-- Claim C10: a bond clause with a currency amount whose `weekly_rent` key is
present but falsy (`None` or `0`) fires no bond branch at all — no illegality,
no deduction, no advisory; the 5-point advisory requires the key to be
entirely absent. -/
theorem C10_bond_falsy_rent :
    (∀ (nums : NumVals) (c : Clause) (ru : StateRules) (co : String) (a : ℚ),
      nums.weeks = none → nums.amount = some a →
      (c.weekly_rent = some none ∨ c.weekly_rent = some (some 0)) →
      bondCheck "bond" nums c ru co = {})
    ∧ (∀ (ct : String) (nums : NumVals) (c : Clause) (ru : StateRules) (co : String),
      Reason.bondCannotValidate ∈ (bondCheck ct nums c ru co).reasons →
      c.weekly_rent = none) := by
  constructor
  · intro nums c ru co a hw ha hr
    rcases hr with hr | hr <;> simp [bondCheck, Clause.rentTruthy, hw, ha, hr]
  · intro ct nums c ru co h
    unfold bondCheck at h
    split at h
    · split at h
      · split at h
        · simp at h
        · simp at h
      · split at h
        · split at h
          · split at h
            · simp at h
            · simp at h
          · split at h
            · assumption
            · simp at h
        · simp at h
    · simp at h

theorem C10_bond_falsy_rent_witness :
    bondCheck "bond" { amount := some 3000 }
      { type := some "bond", weekly_rent := some none } STATE_RULES_NSW "NSW" = {} :=
  C10_bond_falsy_rent.1 { amount := some 3000 }
    { type := some "bond", weekly_rent := some none } STATE_RULES_NSW "NSW" 3000
    rfl rfl (Or.inl rfl)

/-- Claim C5: in the break-lease-fee category, the week-count check and the
currency check (when `weekly_rent` is supplied as a number) are independent —
each that fires sets `illegal` and deducts 35, and both can fire on one clause
for a combined 70 — whereas the bond branch is an either/or chain that can
never produce more than one reason. -/
theorem C5_break_lease_independent :
    (∀ (ct : String) (nums : NumVals) (c : Clause) (ru : StateRules) (co : String),
      (bondCheck ct nums c ru co).reasons.length ≤ 1)
    ∧ (∀ (nums : NumVals) (c : Clause) (ru : StateRules) (co : String) (w a wr : ℚ)
        (eff : CheckEffect),
      nums.weeks = some w → nums.amount = some a → c.weekly_rent = some (some wr) →
      breakLeaseCheck "break_lease_fee" nums c ru co = .ok eff →
      eff.illegal = (decide (blfMaxWeeks ru < w) || decide (wr * blfMaxWeeks ru < a))
      ∧ eff.reasons =
          (if blfMaxWeeks ru < w then [Reason.blfWeeks w (blfMaxWeeks ru) co] else [])
          ++ (if wr * blfMaxWeeks ru < a then
                [Reason.blfAmount a (wr * blfMaxWeeks ru) (blfMaxWeeks ru) wr] else [])
      ∧ eff.deduction = (if blfMaxWeeks ru < w then 35 else 0)
          + (if wr * blfMaxWeeks ru < a then 35 else 0)) := by
  constructor
  · intro ct nums c ru co
    unfold bondCheck
    split
    · split
      · split
        · simp
        · simp
      · split
        · split
          · split
            · simp
            · simp
          · split
            · simp
            · simp
        · simp
    · simp
  · intro nums c ru co w a wr eff hw ha hr h
    simp only [breakLeaseCheck, blfWeekEffect, hw, ha, hr, reduceIte] at h
    by_cases hcw : blfMaxWeeks ru < w <;> by_cases hca : wr * blfMaxWeeks ru < a <;>
      simp only [hcw, hca, if_true, if_false, ite_true, ite_false, Except.ok.injEq] at h <;>
      obtain rfl := h.symm <;>
      simp [hcw, hca]

theorem C5_break_lease_independent_witness :
    (bondCheck "bond" { amount := some 3000, weeks := some 6 }
      { type := some "bond", weekly_rent := some (some 500) } STATE_RULES_NSW "NSW").reasons.length ≤ 1
    ∧ (breakLeaseCheck "break_lease_fee" { amount := some 3000, weeks := some 6 }
        { type := some "break_lease_fee", weekly_rent := some (some 500) }
        STATE_RULES_NSW "NSW" = .ok
          { illegal := true,
            reasons := [Reason.blfWeeks 6 4 "NSW", Reason.blfAmount 3000 2000 4 500],
            deduction := 70 }) ∧
      ({ illegal := true,
         reasons := [Reason.blfWeeks 6 4 "NSW", Reason.blfAmount 3000 2000 4 500],
         deduction := 70 } : CheckEffect).illegal =
        (decide (blfMaxWeeks STATE_RULES_NSW < 6)
          || decide ((500 : ℚ) * blfMaxWeeks STATE_RULES_NSW < 3000)) := by
  refine ⟨C5_break_lease_independent.1 "bond" _ _ STATE_RULES_NSW "NSW", by decide, ?_⟩
  have h := (C5_break_lease_independent.2 { amount := some 3000, weeks := some 6 }
    { type := some "break_lease_fee", weekly_rent := some (some 500) }
    STATE_RULES_NSW "NSW" 6 3000 500
    { illegal := true,
      reasons := [Reason.blfWeeks 6 4 "NSW", Reason.blfAmount 3000 2000 4 500],
      deduction := 70 } rfl rfl rfl (by decide)).1
  exact h

theorem round1_forty : round1 ((40 : ℚ)) = 40 := by
  have h := round1_intCast 40
  push_cast at h
  exact h

/-- Claim C6: for rent-increase clauses the notice-days check and the
frequency-months check fire independently and additively, each setting
`illegal` and deducting 30; under NSW rules a clause with
`numeric_values = {months: m, days: d}`, `d < 60`, `m < 12` assesses to
`illegal = true`, score 40, verdict "Illegal". -/
theorem C6_rent_increase_additive :
    (∀ (nums : NumVals) (ru : StateRules) (co : String) (d m : ℚ),
      nums.days = some d → nums.months = some m →
      rentIncreaseCheck "rent_increase" nums ru co =
        { illegal := (decide (d < rentMinNotice ru) || decide (m < rentMaxFreq ru)),
          reasons :=
            (if d < rentMinNotice ru then [Reason.rentNoticeDays d (rentMinNotice ru) co]
             else [])
            ++ (if m < rentMaxFreq ru then [Reason.rentFrequency m (rentMaxFreq ru)] else []),
          deduction := (if d < rentMinNotice ru then 30 else 0)
            + (if m < rentMaxFreq ru then 30 else 0) })
    ∧ (∀ d m : ℚ, d < 60 → m < 12 →
      (assess_clause_legality_hybrid
        { type := some "rent_increase",
          numeric_values := some { days := some d, months := some m } }
        STATE_RULES_NSW "NSW" none noParse).map (fun r => (r.illegal, r.score, r.verdict))
      = .ok (true, 40, "Illegal")) := by
  have part1 : ∀ (nums : NumVals) (ru : StateRules) (co : String) (d m : ℚ),
      nums.days = some d → nums.months = some m →
      rentIncreaseCheck "rent_increase" nums ru co =
        { illegal := (decide (d < rentMinNotice ru) || decide (m < rentMaxFreq ru)),
          reasons :=
            (if d < rentMinNotice ru then [Reason.rentNoticeDays d (rentMinNotice ru) co]
             else [])
            ++ (if m < rentMaxFreq ru then [Reason.rentFrequency m (rentMaxFreq ru)] else []),
          deduction := (if d < rentMinNotice ru then 30 else 0)
            + (if m < rentMaxFreq ru then 30 else 0) } := by
    intro nums ru co d m hd hm
    simp only [rentIncreaseCheck, rentDayEffect, hd, hm, reduceIte]
    by_cases hcd : d < rentMinNotice ru <;> by_cases hcm : m < rentMaxFreq ru <;>
      simp [hcd, hcm]
  refine ⟨part1, ?_⟩
  intro d m hd hm
  have hd' : d < rentMinNotice STATE_RULES_NSW := by
    rw [show rentMinNotice STATE_RULES_NSW = (60 : ℚ) from rfl]
    exact hd
  have hm' : m < rentMaxFreq STATE_RULES_NSW := by
    rw [show rentMaxFreq STATE_RULES_NSW = (12 : ℚ) from rfl]
    exact hm
  have hrent : rentIncreaseCheck "rent_increase"
      { days := some d, months := some m } STATE_RULES_NSW "NSW" =
      { illegal := true,
        reasons := [Reason.rentNoticeDays d 60 "NSW", Reason.rentFrequency m 12],
        deduction := 60 } := by
    rw [part1 _ _ _ d m rfl rfl]
    simp only [hd', hm', if_true, ite_true, decide_eq_true_eq, Bool.or_eq_true]
    rw [show rentMinNotice STATE_RULES_NSW = (60 : ℚ) from rfl,
        show rentMaxFreq STATE_RULES_NSW = (12 : ℚ) from rfl]
    norm_num [hd', hm']
  unfold assess_clause_legality_hybrid
  rw [show assessFull
      { type := some "rent_increase",
        numeric_values := some { days := some d, months := some m } }
      STATE_RULES_NSW "NSW" none noParse =
      .ok ([bondCheck "rent_increase" { days := some d, months := some m }
              { type := some "rent_increase",
                numeric_values := some { days := some d, months := some m } }
              STATE_RULES_NSW "NSW",
            ({} : CheckEffect),
            rentIncreaseCheck "rent_increase" { days := some d, months := some m }
              STATE_RULES_NSW "NSW",
            entryCheck "rent_increase" { days := some d, months := some m } ""
              STATE_RULES_NSW "NSW"]
           ++ fairnessEffects ""
           ++ [penaltyCheck "rent_increase" { days := some d, months := some m },
               absoluteCheck "", llmCheck none],
           mkResult
             ([bondCheck "rent_increase" { days := some d, months := some m }
                 { type := some "rent_increase",
                   numeric_values := some { days := some d, months := some m } }
                 STATE_RULES_NSW "NSW",
               ({} : CheckEffect),
               rentIncreaseCheck "rent_increase" { days := some d, months := some m }
                 STATE_RULES_NSW "NSW",
               entryCheck "rent_increase" { days := some d, months := some m } ""
                 STATE_RULES_NSW "NSW"]
              ++ fairnessEffects ""
              ++ [penaltyCheck "rent_increase" { days := some d, months := some m },
                  absoluteCheck "", llmCheck none])
             none
             { type := some "rent_increase",
               numeric_values := some { days := some d, months := some m } }) from rfl]
  rw [hrent]
  simp only [Except.map]
  rw [show bondCheck "rent_increase" { days := some d, months := some m }
      { type := some "rent_increase",
        numeric_values := some { days := some d, months := some m } }
      STATE_RULES_NSW "NSW" = ({} : CheckEffect) from rfl,
    show entryCheck "rent_increase" { days := some d, months := some m } ""
      STATE_RULES_NSW "NSW" = ({} : CheckEffect) from rfl,
    show fairnessEffects "" = List.replicate 5 ({} : CheckEffect) from rfl,
    show penaltyCheck "rent_increase" { days := some d, months := some m } =
      ({} : CheckEffect) from rfl,
    show absoluteCheck "" = ({} : CheckEffect) from rfl,
    show llmCheck none = ({} : CheckEffect) from rfl]
  simp only [mkResult, List.replicate, List.cons_append, List.nil_append, List.any_cons,
    List.any_nil, List.map_cons, List.map_nil, List.flatten, List.sum_cons, List.sum_nil,
    List.append_nil, List.nil_append]
  norm_num [round1_forty, min_def, max_def]

theorem C6_rent_increase_additive_witness :
    rentIncreaseCheck "rent_increase" { days := some 30, months := some 6 }
      STATE_RULES_NSW "NSW" =
      { illegal := (decide ((30 : ℚ) < rentMinNotice STATE_RULES_NSW)
          || decide ((6 : ℚ) < rentMaxFreq STATE_RULES_NSW)),
        reasons :=
          (if (30 : ℚ) < rentMinNotice STATE_RULES_NSW then
            [Reason.rentNoticeDays 30 (rentMinNotice STATE_RULES_NSW) "NSW"] else [])
          ++ (if (6 : ℚ) < rentMaxFreq STATE_RULES_NSW then
                [Reason.rentFrequency 6 (rentMaxFreq STATE_RULES_NSW)] else []),
        deduction := (if (30 : ℚ) < rentMinNotice STATE_RULES_NSW then 30 else 0)
          + (if (6 : ℚ) < rentMaxFreq STATE_RULES_NSW then 30 else 0) }
    ∧ (assess_clause_legality_hybrid
        { type := some "rent_increase",
          numeric_values := some { days := some 30, months := some 6 } }
        STATE_RULES_NSW "NSW" none noParse).map (fun r => (r.illegal, r.score, r.verdict))
      = .ok (true, 40, "Illegal") :=
  ⟨C6_rent_increase_additive.1 { days := some 30, months := some 6 } STATE_RULES_NSW "NSW"
      30 6 rfl rfl,
   C6_rent_increase_additive.2 30 6 (by norm_num) (by norm_num)⟩

/-- Claim C7: the entry check triggers when the category is `entry` OR the
lowercased clause text contains the substring "entry" (whatever the
category); when it fires — a day count below a present, non-zero
routine-inspection minimum — it deducts 10 and appends the advisory reason;
it never sets the `illegal` flag. -/
theorem C7_entry_check (ct : String) (nums : NumVals) (text : String)
    (ru : StateRules) (co : String) :
    (entryCheck ct nums text ru co).illegal = false
    ∧ (¬(ct = "entry" ∨ containsL "entry".data (lowerL text.data) = true) →
        entryCheck ct nums text ru co = {})
    ∧ (∀ d allowed : ℚ,
        (ct = "entry" ∨ containsL "entry".data (lowerL text.data) = true) →
        nums.days = some d → entryAllowed ru = some allowed → allowed ≠ 0 → d < allowed →
        entryCheck ct nums text ru co =
          { reasons := [Reason.entryNotice d allowed co], deduction := 10 }) := by
  refine ⟨?_, ?_, ?_⟩
  · unfold entryCheck
    split
    · split
      · split
        · split
          · rfl
          · rfl
        · rfl
      · rfl
    · rfl
  · intro hno
    unfold entryCheck
    rw [if_neg hno]
  · intro d allowed htrig hd hal hnz hlt
    simp [entryCheck, hd, hal, htrig, hnz, hlt]

theorem C7_entry_check_witness :
    (entryCheck "other" { days := some 3 } "Entry into this agreement"
      STATE_RULES_NSW "NSW").illegal = false
    ∧ entryCheck "other" { days := some 3 } "Entry into this agreement"
        STATE_RULES_NSW "NSW" =
      { reasons := [Reason.entryNotice 3 7 "NSW"], deduction := 10 } :=
  ⟨(C7_entry_check "other" { days := some 3 } "Entry into this agreement"
      STATE_RULES_NSW "NSW").1,
   (C7_entry_check "other" { days := some 3 } "Entry into this agreement"
      STATE_RULES_NSW "NSW").2.2 3 7 (Or.inr (by decide)) rfl rfl (by norm_num)
      (by norm_num)⟩

/-- Claim C8: when the oracle is available but its call fails — the query
raises, or the response holds a brace-delimited blob that fails to parse, or
no JSON can be read from it at all — the failure is folded into a degraded
"Needs Manual Review" opinion carrying the failure text, which then takes the
10-point deduction path; and a failing oracle never introduces an assessment
error (any error raised with a failing oracle is already raised without it). -/
theorem C8_oracle_failure_contained (parse : String → Except String Opinion)
    (msg raw s e : String) :
    (call_llm_for_clause (some (.failure msg)) parse =
      some { verdict := "Needs Manual Review", explanation := "LLM call failed: " ++ msg,
             recommended_action := "Retry LLM or fallback" })
    ∧ (find_braced raw = some s → parse s = .error e →
        call_llm_for_clause (some (.success raw)) parse =
          some { verdict := "Needs Manual Review", explanation := "LLM call failed: " ++ e,
                 recommended_action := "Retry LLM or fallback" })
    ∧ (find_braced raw = none → parse raw = .error e →
        call_llm_for_clause (some (.success raw)) parse =
          some { verdict := "Needs Manual Review",
                 explanation := String.mk (raw.data.take 1000),
                 recommended_action := "Ask legal counsel" })
    ∧ (∀ o : Opinion, o.verdict = "Needs Manual Review" →
        llmCheck (some o) = { reasons := [Reason.llmManual o.explanation], deduction := 10 })
    ∧ (∀ (c : Clause) (ru : StateRules) (co : String) (err : PyError),
        assess_clause_legality_hybrid c ru co (some (.failure msg)) parse = .error err →
        assess_clause_legality_hybrid c ru co none parse = .error err) := by
  refine ⟨rfl, ?_, ?_, ?_, ?_⟩
  · intro h1 h2
    simp [call_llm_for_clause, h1, h2]
  · intro h1 h2
    simp [call_llm_for_clause, h1, h2]
  · intro o ho
    have c1 : containsL "illegal".data (lowerL "Needs Manual Review".data) = false := by decide
    have c2 : containsL "potentially unfair".data (lowerL "Needs Manual Review".data) = false :=
      by decide
    have c3 : containsL "unfair".data (lowerL "Needs Manual Review".data) = false := by decide
    have c4 : containsL "needs manual".data (lowerL "Needs Manual Review".data) = true := by
      decide
    simp [llmCheck, ho, c1, c2, c3, c4]
  · intro c ru co err h
    unfold assess_clause_legality_hybrid at h ⊢
    rw [except_map_error] at h ⊢
    rcases assessFull_error c ru co _ parse err h with hres | ⟨nums, c', hres, hbl⟩
    · simp [assessFull, hres]
    · simp [assessFull, checksOf, hres, hbl]

theorem C8_oracle_failure_contained_witness :
    (call_llm_for_clause (some (.failure "timeout")) noParse =
      some { verdict := "Needs Manual Review", explanation := "LLM call failed: timeout",
             recommended_action := "Retry LLM or fallback" })
    ∧ (call_llm_for_clause (some (.success "a\x7bbad\x7db")) noParse =
        some { verdict := "Needs Manual Review",
               explanation := "LLM call failed: Expecting value",
               recommended_action := "Retry LLM or fallback" })
    ∧ (call_llm_for_clause (some (.success "oops")) noParse =
        some { verdict := "Needs Manual Review",
               explanation := String.mk ("oops".data.take 1000),
               recommended_action := "Ask legal counsel" })
    ∧ (llmCheck (some { verdict := "Needs Manual Review", explanation := "E" }) =
        { reasons := [Reason.llmManual "E"], deduction := 10 })
    ∧ (assess_clause_legality_hybrid { text := some "$," } STATE_RULES_NSW "NSW" none noParse =
        .error (.valueError "could not convert string to float")) :=
  ⟨(C8_oracle_failure_contained noParse "timeout" "a\x7bbad\x7db" "\x7bbad\x7d"
      "Expecting value").1,
   (C8_oracle_failure_contained noParse "timeout" "a\x7bbad\x7db" "\x7bbad\x7d"
      "Expecting value").2.1 (by decide) rfl,
   (C8_oracle_failure_contained noParse "timeout" "oops" "s" "Expecting value").2.2.1
      (by decide) rfl,
   (C8_oracle_failure_contained noParse "timeout" "oops" "s" "Expecting value").2.2.2.1
      { verdict := "Needs Manual Review", explanation := "E" } rfl,
   (C8_oracle_failure_contained noParse "timeout" "oops" "s" "Expecting value").2.2.2.2
      { text := some "$," } STATE_RULES_NSW "NSW" (.valueError "could not convert string to float")
      (by decide)⟩

theorem round1_natCast (n : ℕ) : round1 ((n : ℚ)) = (n : ℚ) := by
  have h := round1_intCast ((n : ℤ))
  push_cast at h
  exact h

/-- The arithmetic mean of the per-clause scores as claim C9's words state it
(100 for an empty list); the code's report field is this value rounded to one
decimal, which is what the counterexample exhibits. -/
def specMeanScore (results : List AssessResult) : ℚ :=
  if results.isEmpty then 100
  else (results.map fun r => r.score).sum / ((results.length : ℕ) : ℚ)

/-- Claim C9, counterexample: on a three-clause contract with per-clause
scores 95, 100, 100, the report's `average_score` is `round(295/3, 1) = 98.3`,
which is not the arithmetic mean `295/3`. -/
theorem C9_average_not_mean_cex :
    (evaluate_contract
      [{ type := some "bond", numeric_values := some { amount := some 3000 } }, {}, {}]
      "NSW" none noParse).map (fun rep => (rep.average_score, rep.results.map fun r => r.score))
      = .ok (983 / 10, [95, 100, 100])
    ∧ ((983 : ℚ) / 10) ≠ (95 + 100 + 100) / 3 := by
  constructor
  · decide
  · decide

/-- Claim C9, amended: `evaluate_contract` reports `average_score` as the
arithmetic mean of per-clause scores rounded to one decimal (banker's
rounding), with 100 for an empty list; `overall_verdict` is decided in
priority order — "Contains Illegal Clauses" whenever `illegal_count > 0`,
else "Potentially Unfair — Review Recommended" when some verdict is
"Potentially Unfair" or the (unrounded) mean is below 70, else "Legal" — and
an empty clause list yields average 100, `illegal_count` 0 and verdict
"Legal" rather than an error. -/
theorem C9_aggregation (clauses : List Clause) (state : String)
    (llm : Option (Clause → QueryOutcome)) (parse : String → Except String Opinion)
    (rep : Report) (h : evaluate_contract clauses state llm parse = .ok rep) :
    rep.average_score = round1 (specMeanScore rep.results)
    ∧ rep.illegal_count = rep.results.countP (fun r => r.illegal)
    ∧ rep.overall_verdict =
        (if 0 < rep.illegal_count then "Contains Illegal Clauses"
         else if 0 < rep.results.countP (fun r => r.verdict == "Potentially Unfair")
             ∨ specMeanScore rep.results < 70
           then "Potentially Unfair — Review Recommended"
         else "Legal")
    ∧ (clauses = [] → rep.average_score = 100 ∧ rep.illegal_count = 0
        ∧ rep.overall_verdict = "Legal") := by
  simp only [evaluate_contract] at h
  split at h
  · exact absurd h (by simp)
  · next results heq =>
    obtain rfl : _ = rep := by injection h
    have havg : (if (results.map fun r => r.score).isEmpty then (100 : ℚ)
        else (results.map fun r => r.score).sum / (((results.map fun r => r.score).length : ℕ) : ℚ))
        = specMeanScore results := by
      rcases results with _ | ⟨r, t⟩ <;> simp [specMeanScore]
    refine ⟨?_, rfl, ?_, ?_⟩
    · simp only [havg]
    · simp only [havg]
    · intro hcl
      subst hcl
      obtain rfl : ([] : List AssessResult) = results := by injection heq
      refine ⟨?_, rfl, ?_⟩
      · have h100 := round1_natCast 100
        push_cast at h100
        simpa [specMeanScore] using h100
      · norm_num [specMeanScore]

/-- The report of an empty contract, used to witness the aggregation
theorem. -/
def emptyRep : Report :=
  { state := "NSW", overall_verdict := "Legal", average_score := 100,
    illegal_count := 0, clauses_evaluated := 0, results := [] }

theorem C9_aggregation_witness :
    evaluate_contract [] "NSW" none noParse = .ok emptyRep
    ∧ (emptyRep.average_score = round1 (specMeanScore emptyRep.results)
       ∧ emptyRep.illegal_count = emptyRep.results.countP (fun r => r.illegal)
       ∧ emptyRep.overall_verdict =
           (if 0 < emptyRep.illegal_count then "Contains Illegal Clauses"
            else if 0 < emptyRep.results.countP (fun r => r.verdict == "Potentially Unfair")
                ∨ specMeanScore emptyRep.results < 70
              then "Potentially Unfair — Review Recommended"
            else "Legal")
       ∧ (([] : List Clause) = [] → emptyRep.average_score = 100
           ∧ emptyRep.illegal_count = 0 ∧ emptyRep.overall_verdict = "Legal")) :=
  ⟨by decide, C9_aggregation [] "NSW" none noParse emptyRep (by decide)⟩

/-- Claim C3 (code bug): the clause assessor is documented never to raise for
malformed or incomplete input, but two well-formed clause records do make the
Python code raise: a clause whose text matches the dollar pattern with an
all-comma group (e.g. `text = "$,"`) reaches `float('')`, a `ValueError`,
inside `extract_numbers_from_text`; and a break-lease clause with a currency
amount whose `weekly_rent` key is present with `None` reaches
`weekly_rent * max_weeks`, a `TypeError`.  The embedding returns exactly those
errors at those inputs. -/
theorem C3_assessor_can_raise :
    assess_clause_legality_hybrid { text := some "$," } STATE_RULES_NSW "NSW" none noParse
      = .error (.valueError "could not convert string to float")
    ∧ assess_clause_legality_hybrid
        { type := some "break_lease_fee", numeric_values := some { amount := some 100 },
          weekly_rent := some none }
        STATE_RULES_NSW "NSW" none noParse
      = .error (.typeError "unsupported operand types for *: NoneType and int") := by
  constructor
  · decide
  · decide

end Claims

end RuleEngine
